import Mathlib

set_option maxRecDepth 8000

/-
  Shallow embedding of the platform-integration and asynchronous-job-orchestration
  layer of the sgtma backend, and proofs about it.

  Embedded components (file / function of the source tree):
  * backend/social_media_service.py — SocialMediaPlatform.request_with_retry
    (HTTP retry / backoff / auth-refresh engine).
  * backend/main.py — handle_heygen_webhook (status normalization, artifact
    mirroring, job-state reconciliation).
  * backend/main.py — twitter_oauth_callback / twitter_oauth1_callback
    (single-use OAuth session state).
  * backend/twitter_integration.py — generate_pkce_pair (base64url + SHA-256),
    TwitterPlatform.test_connection.
  * backend/reddit_integration.py — RedditPlatform.test_connection.
  * backend/main.py — AutoCampaignRequest platform validation and
    create_auto_campaign transactional assembly, with
    backend/auto_campaign_service.py — PLATFORM_CAPS.

  Machine integers are modelled as Nat with explicit reduction mod 2^32 where
  the source relies on 32-bit wrap-around (SHA-256).  Byte strings are
  List Nat (each entry a byte value).  Fallible calls return Except / Option,
  and external collaborators (HTTP responses, the AI text backend, the
  storage network fetch, the database connection) are oracles passed as
  explicit arguments.
-/

namespace Sgtma

/-- Decidable equality for Except values with decidable components. -/
instance {ε α : Type} [DecidableEq ε] [DecidableEq α] : DecidableEq (Except ε α)
  | .error a, .error b =>
    if h : a = b then isTrue (by rw [h]) else isFalse fun hh => h (Except.error.inj hh)
  | .error _, .ok _ => isFalse fun h => Except.noConfusion h
  | .ok _, .error _ => isFalse fun h => Except.noConfusion h
  | .ok a, .ok b =>
    if h : a = b then isTrue (by rw [h]) else isFalse fun hh => h (Except.ok.inj hh)

/-- ASCII lower-casing, the effect of Python str.lower() on the ASCII
status and platform strings handled by this layer. -/
def lowerChar (c : Char) : Char :=
  if 'A' ≤ c ∧ c ≤ 'Z' then Char.ofNat (c.toNat + 32) else c

/-- Python s.lower() (ASCII range). -/
def pyLower (s : String) : String := ⟨s.data.map lowerChar⟩

/-- Python s.strip(): drop whitespace from both ends. -/
def pyStrip (s : String) : String :=
  ⟨((s.data.dropWhile Char.isWhitespace).reverse.dropWhile Char.isWhitespace).reverse⟩

/- ===================================================================
   Retry engine
   social_media_service.py, SocialMediaPlatform.request_with_retry
   =================================================================== -/

/-- Outcome of one HTTP attempt as seen by `request_with_retry`: either a
network-level exception (`requests.Timeout` / `requests.ConnectionError`)
or a response carrying a status code. -/
inductive HttpOutcome where
  | netErr : HttpOutcome
  | resp (code : Nat) : HttpOutcome
deriving DecidableEq, Repr

/-- Result of `request_with_retry`: either a returned response (with its
status code) or one of the raised errors of the taxonomy in
social_media_service.py. -/
inductive RetryResult where
  | success (code : Nat)
  | rateLimitError
  | authenticationError
  | authorizationError
  | apiRequestError
  | demoModeError
deriving DecidableEq, Repr

/-- Observable trace of one `request_with_retry` run: its result, how many
HTTP requests were issued, and how many times `authenticate()` was called. -/
structure RetryTrace where
  result : RetryResult
  httpAttempts : Nat
  authCalls : Nat
deriving DecidableEq, Repr

/-- The `for attempt in range(1, max_retries + 1)` loop of
`request_with_retry`.  `outcomes n` is the outcome of the n-th HTTP request
(1-indexed), `authOk` tells whether the single possible `authenticate()`
call succeeds or throws.  `fuel` counts the remaining loop iterations
(`fuel = maxRetries - attempt + 1` at every call); when it reaches 0 the
loop falls through to the final `raise APIRequestError` of the source. -/
def retryLoop (outcomes : Nat → HttpOutcome) (authOk : Bool)
    (expected : List Nat) (maxRetries : Nat) :
    Nat → Nat → Nat → Nat → RetryTrace
  | 0, _, httpN, authN => ⟨.apiRequestError, httpN, authN⟩
  | fuel + 1, attempt, httpN, authN =>
    match outcomes attempt with
    | .netErr =>
      if attempt = maxRetries then ⟨.apiRequestError, httpN + 1, authN⟩
      else retryLoop outcomes authOk expected maxRetries fuel (attempt + 1) (httpN + 1) authN
    | .resp code =>
      if code = 429 then
        if attempt = maxRetries then ⟨.rateLimitError, httpN + 1, authN⟩
        else retryLoop outcomes authOk expected maxRetries fuel (attempt + 1) (httpN + 1) authN
      else if code = 401 ∨ code = 403 then
        if attempt = 1 then
          if authOk then
            retryLoop outcomes authOk expected maxRetries fuel (attempt + 1) (httpN + 1) (authN + 1)
          else ⟨.authenticationError, httpN + 1, authN + 1⟩
        else ⟨.authorizationError, httpN + 1, authN⟩
      else if code ∈ expected then ⟨.success code, httpN + 1, authN⟩
      else if 500 ≤ code ∧ code < 600 ∧ attempt < maxRetries then
        retryLoop outcomes authOk expected maxRetries fuel (attempt + 1) (httpN + 1) authN
      else ⟨.apiRequestError, httpN + 1, authN⟩

/-- SocialMediaPlatform.request_with_retry.  In demo mode the source raises
before any attempt; otherwise it runs the retry loop starting at attempt 1.
The source default for `expected` is `[200, 201, 202]` and for `maxRetries`
is 3; every call site of the repository uses the default `max_retries`. -/
def request_with_retry (demoMode : Bool) (outcomes : Nat → HttpOutcome)
    (authOk : Bool) (expected : List Nat) (maxRetries : Nat) : RetryTrace :=
  if demoMode then ⟨.demoModeError, 0, 0⟩
  else retryLoop outcomes authOk expected maxRetries maxRetries 1 0 0

/- ===================================================================
   Webhook status normalization
   main.py, handle_heygen_webhook (lines 2808-2839)
   =================================================================== -/

/-- Lookup in the literal `status_map` dict of handle_heygen_webhook. -/
def status_map_get (s : String) : Option String :=
  if s = "completed" then some "completed"
  else if s = "success" then some "completed"
  else if s = "succeeded" then some "completed"
  else if s = "finished" then some "completed"
  else if s = "failed" then some "failed"
  else if s = "error" then some "failed"
  else if s = "processing" then some "processing"
  else if s = "pending" then some "processing"
  else none

/-- Source line `db_status = status_map.get(status, status or "processing")`:
the default of the dict lookup is the status itself when non-empty (Python
truthiness), and `"processing"` only when the status string is empty. -/
def db_status_of (status : String) : String :=
  match status_map_get status with
  | some v => v
  | none => if status = "" then "processing" else status

/-- Python substring test `needle in hay` on the underlying character lists. -/
def listContainsSub (needle : List Char) : List Char → Bool
  | [] => needle.isEmpty
  | c :: tail => needle.isPrefixOf (c :: tail) || listContainsSub needle tail

/-- Python `needle in hay` for strings. -/
def strIn (needle hay : String) : Bool :=
  listContainsSub needle.data hay.data

/-- Lines 2818-2825: when the (lower-cased) status string is empty and a
truthy event type is present, derive the status from keyword matching on
the event type; otherwise the status is returned unchanged. -/
def derive_status (event_type : Option String) (status : String) : String :=
  if status = "" then
    match event_type with
    | some et0 =>
      if et0 = "" then status
      else
        let et := pyLower et0
        if strIn "complete" et || strIn "succeed" et || strIn "finish" et then "completed"
        else if strIn "fail" et || strIn "error" et then "failed"
        else if strIn "process" et || strIn "pending" et then "processing"
        else status
    | none => status
  else status

/- ===================================================================
   Webhook reconciliation and artifact mirroring
   main.py, handle_heygen_webhook (lines 2841-2887)
   storage_service.py, StorageService.download_to_s3
   =================================================================== -/

/-- Webhook payload fields used by handle_heygen_webhook after JSON parsing.
A `none` field models an absent key, `some ""` an empty string value.
`result_url` models the nested `payload.get("result", {}).get("url")`. -/
structure WebhookPayload where
  event_type : Option String
  type_field : Option String
  video_id : Option String
  status : Option String
  video_url : Option String
  url : Option String
  result_url : Option String
deriving DecidableEq, Repr

/-- Python `x or y` on optional strings: `x` when truthy (present and
non-empty), else `y`. -/
def py_or : Option String → Option String → Option String
  | some s, y => if s = "" then y else some s
  | none, y => y

/-- Line 2847, `payload.get("video_url") or payload.get("url") or
payload.get("result", {}).get("url")`, combined with the truthiness test
`if video_url:` of line 2849: the resolved output URL, or `none` when the
chain produces nothing truthy. -/
def resolved_video_url (p : WebhookPayload) : Option String :=
  match py_or p.video_url (py_or p.url p.result_url) with
  | some s => if s = "" then none else some s
  | none => none

/-- Line 2809, `event_type = payload.get("event_type", payload.get("type"))`. -/
def payload_event_type (p : WebhookPayload) : Option String :=
  p.event_type.orElse fun _ => p.type_field

/-- Lines 2811-2839 composed: the `db_status` value the handler computes for
a payload (lower-cased status, event-type derivation, lookup table). -/
def payload_db_status (p : WebhookPayload) : String :=
  db_status_of (derive_status (payload_event_type p) (pyLower (p.status.getD "")))

/-- Result of StorageService.download_to_s3 when the network fetch and the
S3 upload succeed: the bucket and generated key of the mirrored object. -/
structure S3Result where
  bucket : String
  key : String
deriving DecidableEq, Repr

/-- Oracle for one `storage_service.download_to_s3` call: either the dict
`{"bucket": ..., "key": ..., "s3_url": ...}` it returns, or the exception
it raises (network error / upload failure). -/
inductive DownloadOutcome where
  | ok (r : S3Result)
  | err
deriving DecidableEq, Repr

/-- The `s3_url` field built by download_to_s3: `f"s3://{_BUCKET}/{key}"`. -/
def s3_url (r : S3Result) : String :=
  "s3://" ++ r.bucket ++ "/" ++ r.key

/-- Database rows touched by the webhook handler: the video-job table keyed
by provider video id (value = local status), and the assets table
(storage location, linked video id). -/
structure HeygenDb where
  jobs : List (String × String)
  assets : List (String × String)
deriving DecidableEq, Repr

/-- Modelled from the spec: the persistence collaborator's UPDATE of the
video-job row keyed by provider video id (the literal SQL text of the
handler is not part of src/; the spec reads "update job record" keyed on
the provider job id). -/
def set_job_status (jobs : List (String × String)) (vid st : String) :
    List (String × String) :=
  jobs.map fun j => if j.1 = vid then (j.1, st) else j

/-- Current status of a job row, if present (the first row whose key is
`vid`). -/
def job_status : List (String × String) → String → Option String
  | [], _ => none
  | j :: tl, vid => if j.1 = vid then some j.2 else job_status tl vid

/-- Single database / storage action performed by the webhook handler, in
order of execution. -/
inductive DbAction where
  | download
  | insertAsset (location : String)
  | updateJob (vid st : String)
deriving DecidableEq, Repr

/-- Response body of the webhook endpoint. -/
inductive WebhookResponse where
  | ok (video_id : String) (status : String)
  | noVideoId
deriving DecidableEq, Repr

/-- Effect of one webhook delivery: the new database state, the ordered
trace of database/storage actions, and the HTTP response. -/
structure WebhookEffect where
  db : HeygenDb
  trace : List DbAction
  response : WebhookResponse
deriving DecidableEq, Repr

/-- Main.py handle_heygen_webhook, lines 2808-2887, after signature
verification and JSON parsing.  `dl` is the oracle for the (at most one)
`download_to_s3` call.  On `db_status == "completed"` with a resolvable
output URL the handler downloads the artifact, inserts an asset row whose
location is `s3_result["s3_url"]` (falling back to
`f"s3://{bucket}/{key}"`, the same string), then updates the job row to
`completed`; a download failure or a missing URL updates the job row to
`failed`; any other status is written through as is.  There is no check of
the job's current status anywhere in the handler. -/
def handle_heygen_webhook (dl : DownloadOutcome) (db : HeygenDb)
    (p : WebhookPayload) : WebhookEffect :=
  match p.video_id with
  | none => ⟨db, [], .noVideoId⟩
  | some vid =>
    if vid = "" then ⟨db, [], .noVideoId⟩
    else
      let dbs := payload_db_status p
      if dbs = "completed" then
        match resolved_video_url p with
        | some _vurl =>
          match dl with
          | .ok r =>
            let loc := s3_url r
            ⟨⟨set_job_status db.jobs vid "completed", db.assets ++ [(loc, vid)]⟩,
              [.download, .insertAsset loc, .updateJob vid "completed"],
              .ok vid dbs⟩
          | .err =>
            ⟨⟨set_job_status db.jobs vid "failed", db.assets⟩,
              [.download, .updateJob vid "failed"],
              .ok vid dbs⟩
        | none =>
          ⟨⟨set_job_status db.jobs vid "failed", db.assets⟩,
            [.updateJob vid "failed"],
            .ok vid dbs⟩
      else
        ⟨⟨set_job_status db.jobs vid dbs, db.assets⟩,
          [.updateJob vid dbs],
          .ok vid dbs⟩

/- ===================================================================
   PKCE OAuth session store and callbacks
   main.py, _twitter_oauth_sessions / twitter_oauth_callback (1924-1956)
   and _twitter_oauth1_sessions / twitter_oauth1_callback (2406-2444)
   =================================================================== -/

/-- In-memory session state stored under a PKCE state token
(twitter_integration.py, TwitterAuthState; created_at omitted). -/
structure TwitterAuthStateM where
  code_verifier : String
  code_challenge : String
deriving DecidableEq, Repr

/-- In-memory session state stored under an OAuth 1.0a request token. -/
structure TwitterOAuth1StateM where
  request_token_secret : String
deriving DecidableEq, Repr

/-- Process-wide session store, a dict keyed by the state token. -/
def StoreOf (α : Type) : Type := String → Option α

/-- Python `dict.pop(key)`: the store with the binding for `s` removed. -/
def store_pop {α : Type} (st : StoreOf α) (s : String) : StoreOf α :=
  fun k => if k = s then none else st k

/-- Outcome of an OAuth callback request. -/
inductive CallbackOutcome where
  | invalid_state
  | exchange_failed
  | userinfo_failed
  | connected
deriving DecidableEq, Repr

/-- Effect of one callback: its outcome, the session store afterwards, and
how many code-for-token exchange calls were attempted. -/
structure CallbackEffect (α : Type) where
  outcome : CallbackOutcome
  store : StoreOf α
  exchange_attempts : Nat

/-- Main.py twitter_oauth_callback (lines 1924-1956).  If the state is not a
key of `_twitter_oauth_sessions` the handler fails with 400
"Invalid or expired state"; otherwise it pops the session (single use)
and only then attempts the code-for-token exchange (`exchangeOk`) and the
user-info fetch (`userOk`); a failure of either surfaces as a 500 after
the session was already popped. -/
def twitter_oauth_callback (exchangeOk userOk : Bool)
    (st : StoreOf TwitterAuthStateM) (state : String) :
    CallbackEffect TwitterAuthStateM :=
  match st state with
  | none => ⟨.invalid_state, st, 0⟩
  | some _auth =>
    let st' := store_pop st state
    if exchangeOk then
      if userOk then ⟨.connected, st', 1⟩
      else ⟨.userinfo_failed, st', 1⟩
    else ⟨.exchange_failed, st', 1⟩

/-- Main.py twitter_oauth1_callback (lines 2406-2444): identical store
discipline keyed by `oauth_token`, with the verifier-for-access-token
exchange and the user-info fetch after the pop. -/
def twitter_oauth1_callback (exchangeOk userOk : Bool)
    (st : StoreOf TwitterOAuth1StateM) (oauth_token : String) :
    CallbackEffect TwitterOAuth1StateM :=
  match st oauth_token with
  | none => ⟨.invalid_state, st, 0⟩
  | some _auth =>
    let st' := store_pop st oauth_token
    if exchangeOk then
      if userOk then ⟨.connected, st', 1⟩
      else ⟨.userinfo_failed, st', 1⟩
    else ⟨.exchange_failed, st', 1⟩

/- ===================================================================
   Platform validation and campaign assembly
   auto_campaign_service.py PLATFORM_CAPS,
   main.py AutoCampaignRequest._normalize_and_validate_platforms
   (3334-3347) and create_auto_campaign (3361-3517)
   =================================================================== -/

/-- Static capability registry `PLATFORM_CAPS` of auto_campaign_service.py. -/
def PLATFORM_CAPS : List (String × List String) :=
  [("twitter", ["tweet"]), ("shorts", ["shorts_caption", "video"])]

/-- Supported platform keys, `set(svc.PLATFORM_CAPS.keys())`. -/
def supported_platforms : List String :=
  PLATFORM_CAPS.map Prod.fst

/-- AutoCampaignRequest._normalize_and_validate_platforms (pydantic
validator, runs before the endpoint body hence before any database work).
Empty input fails; entries are lower-cased and stripped, blank entries
dropped; entries not in the capability registry are FILTERED OUT, and
validation only fails when no supported platform remains. -/
def normalize_and_validate_platforms (value : List String) :
    Except String (List String) :=
  if value = [] then .error "At least one platform must be provided"
  else
    let normalized := value.filterMap fun p =>
      if pyStrip p = "" then none else some (pyStrip (pyLower p))
    if normalized = [] then .error "At least one platform must be provided"
    else
      let filtered := normalized.filter fun p => supported_platforms.contains p
      if filtered = [] then .error "Unsupported platforms" else .ok filtered

/-- Database row kinds created inside the create_auto_campaign transaction. -/
inductive Row where
  | persona
  | pain_point
  | script
  | campaign
  | platform_attach (platform : String)
  | content_tweet (text : String)
  | content_caption (text : String)
  | content_video (asset : Option Nat)
deriving DecidableEq, Repr

/-- Helper calls of auto_campaign_service.py, the module main.py imports
as `svc`.  In src/ every one of these is a visible no-op mock: the bodies
return the constant 1 ("This function now returns a mock ID for API
compatibility") or nothing at all, touch no database, and cannot raise.
(The database-backed versions live in the unused
auto_campaign_service_with_db.py.) -/
inductive MockCall where
  | insert_campaign
  | update_campaign_core
  | attach_platform (platform : String)
  | create_content_tweet
  | create_content_shorts_caption
  | create_content_shorts_video
deriving DecidableEq, Repr

/-- Operation executed inside the transaction body of create_auto_campaign:
either one of the three real `cur.execute(INSERT ... RETURNING ...)`
statements of main.py 3415-3427 (fallible, producing a row), or a call
into one of the mocked campaign-service helpers (infallible, producing
nothing). -/
inductive TxOp where
  | ins (r : Row)
  | mock (c : MockCall)
deriving DecidableEq, Repr

/-- Inputs of the transactional part of create_auto_campaign.  The tweet and
caption texts are resolved before the corresponding insert (override, AI
call, or deterministic fallback — none of which can escape the
surrounding try blocks), so they enter the model as plain strings. -/
structure AutoCampaignInput where
  platforms_raw : List String
  generate_heygen_video : Bool
  tweet_text : String
  caption_text : String
deriving DecidableEq, Repr

/-- Ordered operation list of the transaction body (main.py 3413-3489):
the persona, pain-point and script inserts (real `cur.execute` INSERTs on
the connection, redacted SQL), then svc.insert_campaign,
svc.update_campaign_core, one svc.attach_platform per platform, and the
per-platform content helper calls (tweet if "twitter" requested and the
text truthy; caption if "shorts" requested and the text truthy; video
placeholder if "shorts" requested and a video was asked for) — every svc
call being a no-op mock in the imported module. -/
def campaign_ops (platforms : List String) (genVideo : Bool)
    (tweet caption : String) : List TxOp :=
  [.ins .persona, .ins .pain_point, .ins .script,
   .mock .insert_campaign, .mock .update_campaign_core]
  ++ platforms.map (fun p => .mock (.attach_platform p))
  ++ (if "twitter" ∈ platforms ∧ tweet ≠ "" then [.mock .create_content_tweet] else [])
  ++ (if "shorts" ∈ platforms ∧ caption ≠ "" then [.mock .create_content_shorts_caption] else [])
  ++ (if "shorts" ∈ platforms ∧ genVideo then [.mock .create_content_shorts_video] else [])

/-- Rows produced by a list of operations; the mocked helper calls produce
none. -/
def rows_of (ops : List TxOp) : List Row :=
  ops.filterMap fun op => match op with
    | .ins r => some r
    | .mock _ => none

/-- Modelled from the spec: the persistence collaborator's transactional
connection (execute / commit / rollback) carrying the three INSERT ...
RETURNING statements of main.py 3415-3427, whose literal SQL is redacted
from src/.  `committed` is the observable database, `pending` the
uncommitted work of the open transaction; `fails i` tells whether the i-th
operation raises — consulted only for the real inserts, because the
mocked campaign-service helpers visible in auto_campaign_service.py
cannot raise and touch no database.  On the first failing operation the
source's `except` branch runs `conn.rollback()` and re-raises, so the
observable database is unchanged; only when every operation succeeded does
`conn.commit()` publish the pending rows (main.py 3491-3499). -/
def run_txn_go (fails : Nat → Bool) (committed : List Row) :
    List TxOp → Nat → List Row → Bool × List Row
  | [], _, pending => (true, committed ++ pending)
  | .ins r :: rest, i, pending =>
    if fails i then (false, committed)
    else run_txn_go fails committed rest (i + 1) (pending ++ [r])
  | .mock _ :: rest, i, pending =>
    run_txn_go fails committed rest (i + 1) pending

/-- Run the whole transaction from an empty pending buffer. -/
def run_txn (fails : Nat → Bool) (ops : List TxOp) (committed : List Row) :
    Bool × List Row :=
  run_txn_go fails committed ops 0 []

/-- Transactional section of create_auto_campaign: platform validation
happens in the request model before the endpoint body, so a validation
error leaves the database untouched; otherwise the operation list runs in
one transaction.  The first component is the error detail (`none` means
success), the second the observable committed rows afterwards. -/
def create_auto_campaign (fails : Nat → Bool) (req : AutoCampaignInput)
    (committed : List Row) : Option String × List Row :=
  match normalize_and_validate_platforms req.platforms_raw with
  | .error e => (some e, committed)
  | .ok platforms =>
    let ops := campaign_ops platforms req.generate_heygen_video
      req.tweet_text req.caption_text
    match run_txn fails ops committed with
    | (true, c') => (none, c')
    | (false, c') => (some "500", c')

/- ===================================================================
   Health checks
   twitter_integration.py, TwitterPlatform.test_connection (407-417)
   reddit_integration.py, RedditPlatform.test_connection (348-358)
   =================================================================== -/

/-- TwitterPlatform.test_connection.  Returns `False` in demo mode or when
no access token is configured; otherwise issues
`request_with_retry("GET", ".../2/users/me", expected_statuses=[200])`
with the default three attempts and NO exception handling: whatever the
retry engine raises propagates out of test_connection (an `Except.error`
here); only a successful response yields the boolean
`resp.status_code == 200`. -/
def twitter_test_connection (demoMode hasToken : Bool)
    (outcomes : Nat → HttpOutcome) (authOk : Bool) :
    Except RetryResult Bool :=
  if demoMode then .ok false
  else if hasToken = false then .ok false
  else
    let t := request_with_retry false outcomes authOk [200] 3
    match t.result with
    | .success code => .ok (decide (code = 200))
    | r => .error r

/-- RedditPlatform.test_connection.  Returns `False` in demo mode; otherwise
the whole body — authenticate() when no client is initialized, then
`user.me()` — sits in a `try` whose bare `except Exception` returns
`False`, and the success path returns `user is not None`. -/
def reddit_test_connection (demoMode hasClient authThrows meThrows meUser : Bool) :
    Except Unit Bool :=
  if demoMode then .ok false
  else
    let body : Except Unit Bool :=
      if hasClient = false ∧ authThrows then .error ()
      else if meThrows then .error ()
      else .ok meUser
    match body with
    | .ok b => .ok b
    | .error _ => .ok false

/- ===================================================================
   PKCE pair generation
   twitter_integration.py, generate_pkce_pair (41-49)
   =================================================================== -/

/-- URL-safe base64 alphabet of Python's `base64.urlsafe_b64encode`, as the
byte value of the character encoding sextet `n` (A-Z, a-z, 0-9, '-', '_'). -/
def b64Char (n : Nat) : Nat :=
  if n < 26 then 65 + n
  else if n < 52 then 97 + (n - 26)
  else if n < 62 then 48 + (n - 52)
  else if n = 62 then 45
  else 95

/-- Base64 encoding of a byte string, three input bytes per four output
characters, with `'='` (byte 61) padding on a trailing group of one or two
bytes — Python `base64.urlsafe_b64encode`. -/
def b64encode : List Nat → List Nat
  | b0 :: b1 :: b2 :: rest =>
      b64Char (b0 / 4) :: b64Char (b0 % 4 * 16 + b1 / 16) ::
      b64Char (b1 % 16 * 4 + b2 / 64) :: b64Char (b2 % 64) :: b64encode rest
  | [b0, b1] =>
      [b64Char (b0 / 4), b64Char (b0 % 4 * 16 + b1 / 16), b64Char (b1 % 16 * 4), 61]
  | [b0] =>
      [b64Char (b0 / 4), b64Char (b0 % 4 * 16), 61, 61]
  | [] => []

/-- Payload characters of the base64 encoding (everything but the padding). -/
def b64body : List Nat → List Nat
  | b0 :: b1 :: b2 :: rest =>
      b64Char (b0 / 4) :: b64Char (b0 % 4 * 16 + b1 / 16) ::
      b64Char (b1 % 16 * 4 + b2 / 64) :: b64Char (b2 % 64) :: b64body rest
  | [b0, b1] =>
      [b64Char (b0 / 4), b64Char (b0 % 4 * 16 + b1 / 16), b64Char (b1 % 16 * 4)]
  | [b0] =>
      [b64Char (b0 / 4), b64Char (b0 % 4 * 16)]
  | [] => []

/-- Number of `'='` padding characters the base64 encoding ends with. -/
def b64padCount : List Nat → Nat
  | _ :: _ :: _ :: rest => b64padCount rest
  | [_, _] => 1
  | [_] => 2
  | [] => 0

/-- Python `s.rstrip('=')` on a byte string: drop every trailing 61. -/
def rstripEq (l : List Nat) : List Nat :=
  (l.reverse.dropWhile fun b => b == 61).reverse

/- SHA-256 (hashlib.sha256), modelled on byte strings with 32-bit words as
Nat reduced mod 2^32. -/

/-- Reduction of a Nat to a 32-bit word. -/
def w32 (x : Nat) : Nat := x % 4294967296

/-- Right rotation of a 32-bit word by `n` places. -/
def rotr32 (n x : Nat) : Nat := w32 (x / 2 ^ n + x % 2 ^ n * 2 ^ (32 - n))

/-- SHA-256 Ch(e, f, g). -/
def ch32 (e f g : Nat) : Nat := (e &&& f) ^^^ ((4294967295 ^^^ w32 e) &&& g)

/-- SHA-256 Maj(a, b, c). -/
def maj32 (a b c : Nat) : Nat := (a &&& b) ^^^ (a &&& c) ^^^ (b &&& c)

/-- SHA-256 Σ0. -/
def bigSigma0 (a : Nat) : Nat := rotr32 2 a ^^^ rotr32 13 a ^^^ rotr32 22 a

/-- SHA-256 Σ1. -/
def bigSigma1 (e : Nat) : Nat := rotr32 6 e ^^^ rotr32 11 e ^^^ rotr32 25 e

/-- SHA-256 σ0. -/
def smallSigma0 (x : Nat) : Nat := rotr32 7 x ^^^ rotr32 18 x ^^^ x / 8

/-- SHA-256 σ1. -/
def smallSigma1 (x : Nat) : Nat := rotr32 17 x ^^^ rotr32 19 x ^^^ x / 1024

/-- SHA-256 round constants (fractional parts of the cube roots of the
first 64 primes). -/
def shaK : List Nat :=
  [1116352408, 1899447441, 3049323471, 3921009573, 961987163, 1508970993,
   2453635748, 2870763221, 3624381080, 310598401, 607225278, 1426881987,
   1925078388, 2162078206, 2614888103, 3248222580, 3835390401, 4022224774,
   264347078, 604807628, 770255983, 1249150122, 1555081692, 1996064986,
   2554220882, 2821834349, 2952996808, 3210313671, 3336571891, 3584528711,
   113926993, 338241895, 666307205, 773529912, 1294757372, 1396182291,
   1695183700, 1986661051, 2177026350, 2456956037, 2730485921, 2820302411,
   3259730800, 3345764771, 3516065817, 3600352804, 4094571909, 275423344,
   430227734, 506948616, 659060556, 883997877, 958139571, 1322822218,
   1537002063, 1747873779, 1955562222, 2024104815, 2227730452, 2361852424,
   2428436474, 2756734187, 3204031479, 3329325298]

/-- Working state of the compression function. -/
structure Hash8 where
  h0 : Nat
  h1 : Nat
  h2 : Nat
  h3 : Nat
  h4 : Nat
  h5 : Nat
  h6 : Nat
  h7 : Nat
deriving DecidableEq, Repr

/-- SHA-256 initial hash value. -/
def shaInit : Hash8 :=
  ⟨1779033703, 3144134277, 1013904242, 2773480762,
   1359893119, 2600822924, 528734635, 1541459225⟩

/-- Big-endian 32-bit words from a byte string (complete groups of four). -/
def bytesToWords : List Nat → List Nat
  | a :: b :: c :: d :: rest =>
      (a * 16777216 + b * 65536 + c * 256 + d) :: bytesToWords rest
  | _ => []

/-- Message-schedule extension: append `n` further words, each from the
words 2, 7, 15 and 16 places back. -/
def extendW : Nat → List Nat → List Nat
  | 0, ws => ws
  | n + 1, ws =>
      extendW n (ws ++ [w32 (smallSigma1 (ws.getD (ws.length - 2) 0) +
        ws.getD (ws.length - 7) 0 +
        smallSigma0 (ws.getD (ws.length - 15) 0) +
        ws.getD (ws.length - 16) 0)])

/-- One compression round with round constant and schedule word `kw`. -/
def compressStep (s : Hash8) (kw : Nat × Nat) : Hash8 :=
  let t1 := w32 (s.h7 + bigSigma1 s.h4 + ch32 s.h4 s.h5 s.h6 + kw.1 + kw.2)
  let t2 := w32 (bigSigma0 s.h0 + maj32 s.h0 s.h1 s.h2)
  ⟨w32 (t1 + t2), s.h0, s.h1, s.h2, w32 (s.h3 + t1), s.h4, s.h5, s.h6⟩

/-- Process one 64-byte block. -/
def processBlock (h : Hash8) (block : List Nat) : Hash8 :=
  let ws := extendW 48 (bytesToWords block)
  let s := (shaK.zip ws).foldl compressStep h
  ⟨w32 (h.h0 + s.h0), w32 (h.h1 + s.h1), w32 (h.h2 + s.h2), w32 (h.h3 + s.h3),
   w32 (h.h4 + s.h4), w32 (h.h5 + s.h5), w32 (h.h6 + s.h6), w32 (h.h7 + s.h7)⟩

/-- Big-endian eight-byte encoding of the bit length. -/
def lenBe8 (n : Nat) : List Nat :=
  [n / 72057594037927936 % 256, n / 281474976710656 % 256,
   n / 1099511627776 % 256, n / 4294967296 % 256,
   n / 16777216 % 256, n / 65536 % 256, n / 256 % 256, n % 256]

/-- SHA-256 padding: a 0x80 byte, zeros to 56 mod 64, then the bit length. -/
def sha_pad (msg : List Nat) : List Nat :=
  msg ++ 128 :: List.replicate ((119 - msg.length % 64) % 64) 0
      ++ lenBe8 (8 * msg.length)

/-- Split a byte string into 64-byte blocks; the fuel argument (any bound
on the number of blocks, here the list length) only makes the recursion
structural. -/
def chunks64Go : Nat → List Nat → List (List Nat)
  | 0, _ => []
  | _, [] => []
  | fuel + 1, x :: xs => ((x :: xs).take 64) :: chunks64Go fuel ((x :: xs).drop 64)

/-- Split a byte string into 64-byte blocks. -/
def chunks64 (l : List Nat) : List (List Nat) :=
  chunks64Go l.length l

/-- Big-endian bytes of one 32-bit word. -/
def wordBytesBE (w : Nat) : List Nat :=
  [w / 16777216 % 256, w / 65536 % 256, w / 256 % 256, w % 256]

/-- SHA-256 digest (32 bytes) of a byte string. -/
def sha256 (msg : List Nat) : List Nat :=
  let hf := (chunks64 (sha_pad msg)).foldl processBlock shaInit
  wordBytesBE hf.h0 ++ wordBytesBE hf.h1 ++ wordBytesBE hf.h2 ++ wordBytesBE hf.h3
    ++ wordBytesBE hf.h4 ++ wordBytesBE hf.h5 ++ wordBytesBE hf.h6 ++ wordBytesBE hf.h7

/-- Twitter_integration.py generate_pkce_pair, on the byte level (the
verifier and challenge are ASCII strings; UTF-8 encoding and decoding of
them is the identity on these bytes).  `r` is the output of
`secrets.token_bytes(32)`:
verifier = `base64.urlsafe_b64encode(r).rstrip('=')`,
challenge = `base64.urlsafe_b64encode(sha256(verifier)).rstrip('=')`. -/
def generate_pkce_pair (r : List Nat) : List Nat × List Nat :=
  let verifier := rstripEq (b64encode r)
  (verifier, rstripEq (b64encode (sha256 verifier)))

/-- Spec formulation of the challenge ("base64url(SHA-256(verifier)) with no
padding"): the base64url encoding with every padding byte removed. -/
def pkce_challenge_spec (verifier : List Nat) : List Nat :=
  (b64encode (sha256 verifier)).filter fun b => b ≠ 61

/- ===================================================================
   Concrete instances used by counterexamples and witnesses
   =================================================================== -/

/-- Concrete completed-event payload with an output URL. -/
def replay_payload : WebhookPayload :=
  ⟨none, none, some "v1", some "completed", some "https://h/x.mp4", none, none⟩

/-- Database with one processing job and no assets. -/
def replay_db0 : HeygenDb := ⟨[("v1", "processing")], []⟩

/-- Download oracle that succeeds with a fixed bucket and key. -/
def replay_dl : DownloadOutcome := .ok ⟨"bkt", "k1"⟩

/-- PKCE session store holding exactly one session. -/
def pkce_sessions0 : StoreOf TwitterAuthStateM :=
  fun k => if k = "state1" then some ⟨"ver", "chal"⟩ else none

/-- OAuth 1.0a session store holding exactly one session. -/
def oauth1_sessions0 : StoreOf TwitterOAuth1StateM :=
  fun k => if k = "tokenA" then some ⟨"sec"⟩ else none

/- ===================================================================
   Theorems
   =================================================================== -/

/-- Helper: the retry loop never calls authenticate() after the first
attempt (the `attempt == 1` guard of the 401/403 branch). -/
theorem retryLoop_auth_stable (o : Nat → HttpOutcome) (a : Bool) (e : List Nat)
    (m : Nat) : ∀ fuel attempt httpN authN, 2 ≤ attempt →
      (retryLoop o a e m fuel attempt httpN authN).authCalls = authN := by
  intro fuel
  induction fuel with
  | zero => intro attempt httpN authN _; rfl
  | succ n ih =>
    intro attempt httpN authN h2
    simp only [retryLoop]
    cases o attempt with
    | netErr =>
      by_cases hm : attempt = m
      · simp [hm]
      · simp only [if_neg hm]
        exact ih _ _ _ (by omega)
    | resp code =>
      by_cases h429 : code = 429
      · simp only [if_pos h429]
        by_cases hm : attempt = m
        · simp [hm]
        · simp only [if_neg hm]
          exact ih _ _ _ (by omega)
      · simp only [if_neg h429]
        by_cases hauth : code = 401 ∨ code = 403
        · have h1 : ¬ attempt = 1 := by omega
          simp [hauth, h1]
        · simp only [if_neg hauth]
          by_cases hexp : code ∈ e
          · simp [hexp]
          · simp only [if_neg hexp]
            by_cases h5 : 500 ≤ code ∧ code < 600 ∧ attempt < m
            · simp only [if_pos h5]
              exact ih _ _ _ (by omega)
            · simp [h5]

/-- Helper: over a whole run the retry loop calls authenticate() at most
once more than it already has, and only when still at attempt 1. -/
theorem retryLoop_auth_le (o : Nat → HttpOutcome) (a : Bool) (e : List Nat)
    (m : Nat) : ∀ fuel attempt httpN authN,
      (retryLoop o a e m fuel attempt httpN authN).authCalls ≤
        authN + (if attempt ≤ 1 then 1 else 0) := by
  intro fuel
  induction fuel with
  | zero => intro attempt httpN authN; simp [retryLoop]
  | succ n ih =>
    intro attempt httpN authN
    simp only [retryLoop]
    cases o attempt with
    | netErr =>
      by_cases hm : attempt = m
      · simp [hm]
      · simp only [if_neg hm]
        calc (retryLoop o a e m n (attempt + 1) (httpN + 1) authN).authCalls
            ≤ authN + (if attempt + 1 ≤ 1 then 1 else 0) := ih _ _ _
          _ ≤ authN + (if attempt ≤ 1 then 1 else 0) := by split_ifs <;> omega
    | resp code =>
      by_cases h429 : code = 429
      · simp only [if_pos h429]
        by_cases hm : attempt = m
        · simp [hm]
        · simp only [if_neg hm]
          calc (retryLoop o a e m n (attempt + 1) (httpN + 1) authN).authCalls
              ≤ authN + (if attempt + 1 ≤ 1 then 1 else 0) := ih _ _ _
            _ ≤ authN + (if attempt ≤ 1 then 1 else 0) := by split_ifs <;> omega
      · simp only [if_neg h429]
        by_cases hauth : code = 401 ∨ code = 403
        · simp only [if_pos hauth]
          by_cases h1 : attempt = 1
          · simp only [if_pos h1]
            cases a with
            | true =>
              simp only [if_pos rfl]
              calc (retryLoop o true e m n (attempt + 1) (httpN + 1) (authN + 1)).authCalls
                  = authN + 1 := retryLoop_auth_stable o true e m n _ _ _ (by omega)
                _ ≤ authN + (if attempt ≤ 1 then 1 else 0) := by
                    simp [h1]
            | false => simp [h1]
          · simp only [if_neg h1]
            split_ifs <;> omega
        · simp only [if_neg hauth]
          by_cases hexp : code ∈ e
          · simp only [if_pos hexp]
            split_ifs <;> omega
          · simp only [if_neg hexp]
            by_cases h5 : 500 ≤ code ∧ code < 600 ∧ attempt < m
            · simp only [if_pos h5]
              calc (retryLoop o a e m n (attempt + 1) (httpN + 1) authN).authCalls
                  ≤ authN + (if attempt + 1 ≤ 1 then 1 else 0) := ih _ _ _
                _ ≤ authN + (if attempt ≤ 1 then 1 else 0) := by split_ifs <;> omega
            · simp only [if_neg h5]
              split_ifs <;> omega

/-- Helper: the number of issued HTTP requests never decreases. -/
theorem retryLoop_http_mono (o : Nat → HttpOutcome) (a : Bool) (e : List Nat)
    (m : Nat) : ∀ fuel attempt httpN authN,
      httpN ≤ (retryLoop o a e m fuel attempt httpN authN).httpAttempts := by
  intro fuel
  induction fuel with
  | zero => intro attempt httpN authN; simp [retryLoop]
  | succ n ih =>
    intro attempt httpN authN
    simp only [retryLoop]
    cases o attempt with
    | netErr =>
      by_cases hm : attempt = m
      · simp [hm]
      · simp only [if_neg hm]
        exact le_trans (by omega) (ih (attempt + 1) (httpN + 1) authN)
    | resp code =>
      by_cases h429 : code = 429
      · simp only [if_pos h429]
        by_cases hm : attempt = m
        · simp [hm]
        · simp only [if_neg hm]
          exact le_trans (by omega) (ih (attempt + 1) (httpN + 1) authN)
      · simp only [if_neg h429]
        by_cases hauth : code = 401 ∨ code = 403
        · simp only [if_pos hauth]
          by_cases h1 : attempt = 1
          · simp only [if_pos h1]
            cases a with
            | true =>
              simp only [if_pos rfl]
              exact le_trans (by omega) (ih (attempt + 1) (httpN + 1) (authN + 1))
            | false => simp
          · simp [h1]
        · simp only [if_neg hauth]
          by_cases hexp : code ∈ e
          · simp [hexp]
          · simp only [if_neg hexp]
            by_cases h5 : 500 ≤ code ∧ code < 600 ∧ attempt < m
            · simp only [if_pos h5]
              exact le_trans (by omega) (ih (attempt + 1) (httpN + 1) authN)
            · simp [h5]

/-- Helper: as long as fuel remains, at least one further HTTP request is
issued. -/
theorem retryLoop_http_progress (o : Nat → HttpOutcome) (a : Bool) (e : List Nat)
    (m : Nat) (fuel attempt httpN authN : Nat) (hf : 1 ≤ fuel) :
    httpN + 1 ≤ (retryLoop o a e m fuel attempt httpN authN).httpAttempts := by
  obtain ⟨n, rfl⟩ : ∃ n, fuel = n + 1 := ⟨fuel - 1, by omega⟩
  simp only [retryLoop]
  cases o attempt with
  | netErr =>
    by_cases hm : attempt = m
    · simp [hm]
    · simp only [if_neg hm]
      exact retryLoop_http_mono o a e m n (attempt + 1) (httpN + 1) authN
  | resp code =>
    by_cases h429 : code = 429
    · simp only [if_pos h429]
      by_cases hm : attempt = m
      · simp [hm]
      · simp only [if_neg hm]
        exact retryLoop_http_mono o a e m n (attempt + 1) (httpN + 1) authN
    · simp only [if_neg h429]
      by_cases hauth : code = 401 ∨ code = 403
      · simp only [if_pos hauth]
        by_cases h1 : attempt = 1
        · simp only [if_pos h1]
          cases a with
          | true =>
            simp only [if_pos rfl]
            exact retryLoop_http_mono o true e m n (attempt + 1) (httpN + 1) (authN + 1)
          | false => simp
        · simp [h1]
      · simp only [if_neg hauth]
        by_cases hexp : code ∈ e
        · simp [hexp]
        · simp only [if_neg hexp]
          by_cases h5 : 500 ≤ code ∧ code < 600 ∧ attempt < m
          · simp only [if_pos h5]
            exact retryLoop_http_mono o a e m n (attempt + 1) (httpN + 1) authN
          · simp [h5]

/-- C3: for every request executed by the retry engine (all repository call
sites use the default of three attempts, so at least two attempts are
permitted), an HTTP 401 or 403 on the first attempt triggers exactly one
authenticate() call; when the refresh succeeds exactly one retried attempt
follows immediately, and a 401/403 on that (or any later) attempt raises
AuthorizationError with no further authenticate() calls; when the refresh
itself throws, the engine raises AuthenticationError instead.  In every
run, over all outcomes, authenticate() is called at most once. -/
theorem C3_retry_auth_refresh (o : Nat → HttpOutcome) (authOk : Bool)
    (e : List Nat) (m : Nat) (hm : 2 ≤ m)
    (h1 : o 1 = HttpOutcome.resp 401 ∨ o 1 = HttpOutcome.resp 403) :
    (request_with_retry false o authOk e m).authCalls = 1
    ∧ (authOk = true →
        2 ≤ (request_with_retry false o authOk e m).httpAttempts
        ∧ ((o 2 = HttpOutcome.resp 401 ∨ o 2 = HttpOutcome.resp 403) →
            request_with_retry false o authOk e m =
              ⟨RetryResult.authorizationError, 2, 1⟩))
    ∧ (authOk = false →
        request_with_retry false o authOk e m =
          ⟨RetryResult.authenticationError, 1, 1⟩)
    ∧ (∀ (o₂ : Nat → HttpOutcome) (a₂ : Bool) (e₂ : List Nat) (m₂ : Nat),
        (request_with_retry false o₂ a₂ e₂ m₂).authCalls ≤ 1) := by
  obtain ⟨k, rfl⟩ : ∃ k, m = k + 2 := ⟨m - 2, by omega⟩
  have hk : k + 2 = (k + 1) + 1 := rfl
  have hstep : request_with_retry false o authOk e (k + 2) =
      (if authOk then retryLoop o authOk e (k + 2) (k + 1) 2 1 1
       else ⟨RetryResult.authenticationError, 1, 1⟩) := by
    rw [request_with_retry, if_neg (by simp), hk]
    rcases h1 with h | h <;>
      · simp only [retryLoop, h]
        norm_num
  constructor
  · rw [hstep]
    cases authOk with
    | true =>
      simp only [if_pos rfl]
      exact retryLoop_auth_stable o true e (k + 2) (k + 1) 2 1 1 (by omega)
    | false => simp
  refine ⟨?_, ?_, ?_⟩
  · intro ha
    subst ha
    rw [hstep]
    simp only [if_pos rfl]
    constructor
    · exact retryLoop_http_progress o true e (k + 2) (k + 1) 2 1 1 (by omega)
    · intro h2
      obtain ⟨n, hn⟩ : ∃ n, k + 1 = n + 1 := ⟨k, rfl⟩
      rw [hn]
      rcases h2 with h | h <;>
        · simp only [retryLoop, h]
          norm_num
  · intro ha
    subst ha
    rw [hstep]
    simp
  · intro o₂ a₂ e₂ m₂
    rw [request_with_retry]
    by_cases hd : (false : Bool) = true
    · simp at hd
    · simp only [if_neg hd]
      have := retryLoop_auth_le o₂ a₂ e₂ m₂ m₂ 1 0 0
      simpa using this

/-- C3 witness: at three attempts with the constant outcome 401 and a
succeeding refresh, the hypotheses of C3_retry_auth_refresh hold and the
run ends in AuthorizationError after exactly two HTTP attempts and one
authenticate() call. -/
theorem C3_retry_auth_refresh_witness :
    2 ≤ 3
    ∧ request_with_retry false (fun _ => HttpOutcome.resp 401) true [200, 201, 202] 3 =
        ⟨RetryResult.authorizationError, 2, 1⟩ :=
  ⟨by omega,
    ((C3_retry_auth_refresh (fun _ => HttpOutcome.resp 401) true [200, 201, 202] 3
      (by omega) (Or.inl rfl)).2.1 rfl).2 (Or.inl rfl)⟩

/-- C1 counterexample: a webhook event carrying the non-empty status
"cancelled", which is not a key of the lookup table, does NOT result in
job status "processing": the handler writes the unrecognized value
through unchanged. -/
theorem C1_unrecognized_status_cex :
    handle_heygen_webhook DownloadOutcome.err ⟨[("v1", "queued")], []⟩
        ⟨none, none, some "v1", some "cancelled", none, none, none⟩ =
      ⟨⟨[("v1", "cancelled")], []⟩, [DbAction.updateJob "v1" "cancelled"],
        WebhookResponse.ok "v1" "cancelled"⟩
    ∧ status_map_get "cancelled" = none
    ∧ "cancelled" ≠ "processing" := by
  refine ⟨by decide, by decide, by decide⟩

/-- C1 amended: the webhook handler normalizes the provider status through
the lookup table ("success", "succeeded", "finished" map to "completed";
"error" maps to "failed"; "pending" maps to "processing"); an EMPTY status
string defaults to "processing", while a non-empty status string absent
from the table is passed through unchanged as the job status rather than
defaulting to "processing". -/
theorem C1_status_normalization :
    (db_status_of "success" = "completed" ∧ db_status_of "succeeded" = "completed"
      ∧ db_status_of "finished" = "completed" ∧ db_status_of "completed" = "completed")
    ∧ (db_status_of "error" = "failed" ∧ db_status_of "failed" = "failed")
    ∧ (db_status_of "processing" = "processing" ∧ db_status_of "pending" = "processing"
      ∧ db_status_of "" = "processing")
    ∧ (∀ s : String, status_map_get s = none → s ≠ "" → db_status_of s = s) := by
  refine ⟨⟨by decide, by decide, by decide, by decide⟩, ⟨by decide, by decide⟩,
    ⟨by decide, by decide, by decide⟩, ?_⟩
  intro s hnone hne
  simp [db_status_of, hnone, hne]

/-- C1 witness: the pass-through branch of C1_status_normalization applied
to the concrete unrecognized status "cancelled". -/
theorem C1_status_normalization_witness :
    status_map_get "cancelled" = none ∧ "cancelled" ≠ ""
    ∧ db_status_of "cancelled" = "cancelled" :=
  ⟨by decide, by decide,
    C1_status_normalization.2.2.2 "cancelled" (by decide) (by decide)⟩

/-- C2: evidence of the divergence.  Delivering the same terminal
"completed" webhook event (same provider job id, same status, same output
URL) twice is NOT a no-op: the handler has no guard on the job's current
status, so the second delivery performs another download_to_s3 call
(its trace contains a download action again) and inserts a second asset
row; only the job's final status coincides with the claim. -/
theorem C2_replay_downloads_and_duplicates :
    (handle_heygen_webhook replay_dl replay_db0 replay_payload).db =
        ⟨[("v1", "completed")], [("s3://bkt/k1", "v1")]⟩
    ∧ (handle_heygen_webhook replay_dl
        (handle_heygen_webhook replay_dl replay_db0 replay_payload).db
        replay_payload).db.assets = [("s3://bkt/k1", "v1"), ("s3://bkt/k1", "v1")]
    ∧ (handle_heygen_webhook replay_dl
        (handle_heygen_webhook replay_dl replay_db0 replay_payload).db
        replay_payload).trace.count DbAction.download = 1
    ∧ job_status (handle_heygen_webhook replay_dl
        (handle_heygen_webhook replay_dl replay_db0 replay_payload).db
        replay_payload).db.jobs "v1" = some "completed" := by
  refine ⟨by decide, by decide, by decide, by decide⟩

/-- Helper: updating a job that is present in the table yields that status
on lookup. -/
theorem job_status_set (jobs : List (String × String)) (vid st s0 : String)
    (h : job_status jobs vid = some s0) :
    job_status (set_job_status jobs vid st) vid = some st := by
  induction jobs with
  | nil => simp [job_status] at h
  | cons j tl ih =>
    by_cases hj : j.1 = vid
    · simp [job_status, set_job_status, hj]
    · simp only [job_status, if_neg hj] at h
      simp only [set_job_status, List.map_cons, if_neg hj, job_status]
      show job_status (set_job_status tl vid st) vid = some st
      exact ih h

/-- Helper: the mirrored storage location string is never empty. -/
theorem s3_url_ne_empty (r : S3Result) : s3_url r ≠ "" := by
  intro h
  have hl := congrArg String.length h
  have h5 : ("s3://" : String).length = 5 := rfl
  simp [s3_url, String.length_append] at hl
  omega

/-- C5: for a webhook event whose status maps to "completed" and a job
present in the table: with a resolvable output URL and a successful
download_to_s3, the asset row (with its non-empty s3:// location) is
inserted and only then is the job row set to "completed" (the handler's
action trace is download, insert asset, update job); if download_to_s3
fails, the job is marked "failed"; if no output URL is resolvable from
video_url / url / result.url, the job is marked "failed". -/
theorem C5_completed_requires_artifact (dl : DownloadOutcome) (db : HeygenDb)
    (p : WebhookPayload) (vid s0 : String)
    (hvid : p.video_id = some vid) (hv : vid ≠ "")
    (hjob : job_status db.jobs vid = some s0)
    (hc : payload_db_status p = "completed") :
    (∀ u r, resolved_video_url p = some u → dl = DownloadOutcome.ok r →
        job_status (handle_heygen_webhook dl db p).db.jobs vid = some "completed"
        ∧ (s3_url r, vid) ∈ (handle_heygen_webhook dl db p).db.assets
        ∧ s3_url r ≠ ""
        ∧ (handle_heygen_webhook dl db p).trace =
            [DbAction.download, DbAction.insertAsset (s3_url r),
             DbAction.updateJob vid "completed"])
    ∧ (∀ u, resolved_video_url p = some u → dl = DownloadOutcome.err →
        job_status (handle_heygen_webhook dl db p).db.jobs vid = some "failed"
        ∧ (handle_heygen_webhook dl db p).db.assets = db.assets)
    ∧ (resolved_video_url p = none →
        job_status (handle_heygen_webhook dl db p).db.jobs vid = some "failed"
        ∧ (handle_heygen_webhook dl db p).db.assets = db.assets) := by
  refine ⟨?_, ?_, ?_⟩
  · intro u r hu hdl
    subst hdl
    simp only [handle_heygen_webhook, hvid, hc, hu, if_neg hv, if_pos rfl]
    exact ⟨job_status_set db.jobs vid "completed" s0 hjob,
      by simp, s3_url_ne_empty r, rfl⟩
  · intro u hu hdl
    subst hdl
    simp only [handle_heygen_webhook, hvid, hc, hu, if_neg hv, if_pos rfl]
    exact ⟨job_status_set db.jobs vid "failed" s0 hjob, rfl⟩
  · intro hu
    simp only [handle_heygen_webhook, hvid, hc, hu, if_neg hv, if_pos rfl]
    exact ⟨job_status_set db.jobs vid "failed" s0 hjob, rfl⟩

/-- C5 witness: the success branch of C5_completed_requires_artifact at the
concrete completed event with output URL and a succeeding download. -/
theorem C5_completed_requires_artifact_witness :
    replay_payload.video_id = some "v1" ∧ "v1" ≠ ""
    ∧ job_status replay_db0.jobs "v1" = some "processing"
    ∧ payload_db_status replay_payload = "completed"
    ∧ resolved_video_url replay_payload = some "https://h/x.mp4"
    ∧ job_status (handle_heygen_webhook replay_dl replay_db0 replay_payload).db.jobs "v1" =
        some "completed"
    ∧ ("s3://bkt/k1", "v1") ∈ (handle_heygen_webhook replay_dl replay_db0 replay_payload).db.assets :=
  ⟨by decide, by decide, by decide, by decide, by decide,
    ((C5_completed_requires_artifact replay_dl replay_db0 replay_payload "v1" "processing"
        (by decide) (by decide) (by decide) (by decide)).1
      "https://h/x.mp4" ⟨"bkt", "k1"⟩ (by decide) rfl).1,
    ((C5_completed_requires_artifact replay_dl replay_db0 replay_payload "v1" "processing"
        (by decide) (by decide) (by decide) (by decide)).1
      "https://h/x.mp4" ⟨"bkt", "k1"⟩ (by decide) rfl).2.1⟩

/-- Helper: popping a key removes exactly that binding. -/
theorem store_pop_self {α : Type} (st : StoreOf α) (s : String) :
    store_pop st s s = none := by
  simp [store_pop]

/-- Helper: a found session reduces the PKCE callback to its three
post-pop branches, all of which carry the popped store and one exchange
attempt. -/
theorem twitter_oauth_callback_found (exOk uOk : Bool)
    (st : StoreOf TwitterAuthStateM) (s : String) (a : TwitterAuthStateM)
    (h : st s = some a) :
    twitter_oauth_callback exOk uOk st s =
      ⟨if exOk then (if uOk then CallbackOutcome.connected
          else CallbackOutcome.userinfo_failed)
        else CallbackOutcome.exchange_failed,
       store_pop st s, 1⟩ := by
  simp only [twitter_oauth_callback, h]
  split_ifs <;> rfl

/-- Helper: same reduction for the OAuth 1.0a callback. -/
theorem twitter_oauth1_callback_found (exOk uOk : Bool)
    (st : StoreOf TwitterOAuth1StateM) (t : String) (a : TwitterOAuth1StateM)
    (h : st t = some a) :
    twitter_oauth1_callback exOk uOk st t =
      ⟨if exOk then (if uOk then CallbackOutcome.connected
          else CallbackOutcome.userinfo_failed)
        else CallbackOutcome.exchange_failed,
       store_pop st t, 1⟩ := by
  simp only [twitter_oauth1_callback, h]
  split_ifs <;> rfl

/-- Helper: a callback for an absent state fails with invalid-state,
touches nothing, and attempts no exchange. -/
theorem twitter_oauth_callback_absent (exOk uOk : Bool)
    (st : StoreOf TwitterAuthStateM) (s : String) (h : st s = none) :
    twitter_oauth_callback exOk uOk st s = ⟨CallbackOutcome.invalid_state, st, 0⟩ := by
  simp [twitter_oauth_callback, h]

/-- Helper: same for the OAuth 1.0a callback. -/
theorem twitter_oauth1_callback_absent (exOk uOk : Bool)
    (st : StoreOf TwitterOAuth1StateM) (t : String) (h : st t = none) :
    twitter_oauth1_callback exOk uOk st t = ⟨CallbackOutcome.invalid_state, st, 0⟩ := by
  simp [twitter_oauth1_callback, h]

/-- C6: a PKCE OAuth session state token is single-use.  The first callback
presenting a state token that is in the session store does not fail with
invalid-state, performs its one token-exchange attempt, and removes the
token from the store; any subsequent callback presenting the same token
fails with the invalid-or-expired-state condition, attempts no token
exchange, and leaves the store unchanged. -/
theorem C6_oauth_state_single_use (exOk uOk ex2 u2 : Bool)
    (st : StoreOf TwitterAuthStateM) (s : String) (a : TwitterAuthStateM)
    (h : st s = some a) :
    (twitter_oauth_callback exOk uOk st s).outcome ≠ CallbackOutcome.invalid_state
    ∧ (twitter_oauth_callback exOk uOk st s).exchange_attempts = 1
    ∧ (twitter_oauth_callback exOk uOk st s).store s = none
    ∧ twitter_oauth_callback ex2 u2 (twitter_oauth_callback exOk uOk st s).store s =
        ⟨CallbackOutcome.invalid_state, (twitter_oauth_callback exOk uOk st s).store, 0⟩ := by
  rw [twitter_oauth_callback_found exOk uOk st s a h]
  refine ⟨?_, rfl, store_pop_self st s, ?_⟩
  · split_ifs <;> simp
  · exact twitter_oauth_callback_absent ex2 u2 (store_pop st s) s (store_pop_self st s)

/-- C6 witness: the single-session store consumed at its token, then
rejected on replay. -/
theorem C6_oauth_state_single_use_witness :
    pkce_sessions0 "state1" = some ⟨"ver", "chal"⟩
    ∧ (twitter_oauth_callback true true pkce_sessions0 "state1").store "state1" = none
    ∧ twitter_oauth_callback true true
        (twitter_oauth_callback true true pkce_sessions0 "state1").store "state1" =
        ⟨CallbackOutcome.invalid_state,
          (twitter_oauth_callback true true pkce_sessions0 "state1").store, 0⟩ :=
  ⟨rfl,
    (C6_oauth_state_single_use true true true true pkce_sessions0 "state1" ⟨"ver", "chal"⟩ rfl).2.2.1,
    (C6_oauth_state_single_use true true true true pkce_sessions0 "state1" ⟨"ver", "chal"⟩ rfl).2.2.2⟩

/-- C10: both OAuth callbacks pop the session state before attempting the
code-for-token exchange, so when the exchange fails the token is already
consumed: the callback reports the exchange failure, the state is gone
from the store, and a retry with the same token is rejected as invalid
state without a further exchange attempt. -/
theorem C10_state_consumed_on_failed_exchange (uOk ex2 u2 : Bool)
    (st : StoreOf TwitterAuthStateM) (s : String) (a : TwitterAuthStateM)
    (h : st s = some a)
    (st1 : StoreOf TwitterOAuth1StateM) (t : String) (b : TwitterOAuth1StateM)
    (h1 : st1 t = some b) :
    (twitter_oauth_callback false uOk st s).outcome = CallbackOutcome.exchange_failed
    ∧ (twitter_oauth_callback false uOk st s).store s = none
    ∧ twitter_oauth_callback ex2 u2 (twitter_oauth_callback false uOk st s).store s =
        ⟨CallbackOutcome.invalid_state, (twitter_oauth_callback false uOk st s).store, 0⟩
    ∧ (twitter_oauth1_callback false uOk st1 t).outcome = CallbackOutcome.exchange_failed
    ∧ (twitter_oauth1_callback false uOk st1 t).store t = none
    ∧ twitter_oauth1_callback ex2 u2 (twitter_oauth1_callback false uOk st1 t).store t =
        ⟨CallbackOutcome.invalid_state, (twitter_oauth1_callback false uOk st1 t).store, 0⟩ := by
  rw [twitter_oauth_callback_found false uOk st s a h]
  rw [twitter_oauth1_callback_found false uOk st1 t b h1]
  refine ⟨by simp, store_pop_self st s, ?_, by simp, store_pop_self st1 t, ?_⟩
  · exact twitter_oauth_callback_absent ex2 u2 (store_pop st s) s (store_pop_self st s)
  · exact twitter_oauth1_callback_absent ex2 u2 (store_pop st1 t) t (store_pop_self st1 t)

/-- C10 witness: both concrete single-session stores, failed exchange,
consumed state, rejected retry. -/
theorem C10_state_consumed_on_failed_exchange_witness :
    pkce_sessions0 "state1" = some ⟨"ver", "chal"⟩
    ∧ oauth1_sessions0 "tokenA" = some ⟨"sec"⟩
    ∧ (twitter_oauth_callback false true pkce_sessions0 "state1").outcome =
        CallbackOutcome.exchange_failed
    ∧ (twitter_oauth_callback false true pkce_sessions0 "state1").store "state1" = none
    ∧ (twitter_oauth1_callback false true oauth1_sessions0 "tokenA").outcome =
        CallbackOutcome.exchange_failed :=
  ⟨rfl, rfl,
    (C10_state_consumed_on_failed_exchange true true true pkce_sessions0 "state1" ⟨"ver", "chal"⟩
      rfl oauth1_sessions0 "tokenA" ⟨"sec"⟩ rfl).1,
    (C10_state_consumed_on_failed_exchange true true true pkce_sessions0 "state1" ⟨"ver", "chal"⟩
      rfl oauth1_sessions0 "tokenA" ⟨"sec"⟩ rfl).2.1,
    (C10_state_consumed_on_failed_exchange true true true pkce_sessions0 "state1" ⟨"ver", "chal"⟩
      rfl oauth1_sessions0 "tokenA" ⟨"sec"⟩ rfl).2.2.2.1⟩

/-- Helper: when a transaction aborts, the observable committed rows are
exactly the ones from before the transaction (conn.rollback discards all
pending work and conn.commit never ran). -/
theorem run_txn_go_rollback (fails : Nat → Bool) (committed : List Row) :
    ∀ (ops : List TxOp) (i : Nat) (pending : List Row),
      (run_txn_go fails committed ops i pending).1 = false →
      (run_txn_go fails committed ops i pending).2 = committed := by
  intro ops
  induction ops with
  | nil => intro i pending h; simp [run_txn_go] at h
  | cons op rest ih =>
    intro i pending h
    cases op with
    | ins r =>
      by_cases hf : fails i
      · simp [run_txn_go, hf]
      · simp only [run_txn_go, if_neg hf] at h ⊢
        exact ih _ _ h
    | mock c =>
      simp only [run_txn_go] at h ⊢
      exact ih _ _ h

/-- Helper: a committed transaction publishes the pending rows plus the
rows of every remaining operation, in order. -/
theorem run_txn_go_commit (fails : Nat → Bool) (committed : List Row) :
    ∀ (ops : List TxOp) (i : Nat) (pending : List Row),
      (run_txn_go fails committed ops i pending).1 = true →
      (run_txn_go fails committed ops i pending).2 =
        committed ++ pending ++ rows_of ops := by
  intro ops
  induction ops with
  | nil => intro i pending _; simp [run_txn_go, rows_of]
  | cons op rest ih =>
    intro i pending h
    cases op with
    | ins r =>
      by_cases hf : fails i
      · simp [run_txn_go, hf] at h
      · simp only [run_txn_go, if_neg hf] at h ⊢
        rw [ih _ _ h]
        simp [rows_of]
    | mock c =>
      simp only [run_txn_go] at h ⊢
      rw [ih _ _ h]
      simp [rows_of]

/-- C4: evidence of the divergence.  The campaign-service helpers that
main.py actually imports (auto_campaign_service.py) are no-op mocks
returning the constant 1, so a successful assembly over twitter and
shorts with a requested video commits ONLY the persona, pain-point and
script rows: afterwards no campaign row, no platform attachment and no
content row exists — a partially assembled campaign is observable,
against the all-or-nothing assembly the claim describes, and the
campaign/attachment/content steps can never raise at all.  The rollback
machinery of main.py itself is intact: the same run with a failing script
insert (operation index 2) leaves the database exactly as before. -/
theorem C4_campaign_mock_helpers_partial_commit :
    create_auto_campaign (fun _ => false) ⟨["twitter", "shorts"], true, "tw", "cap"⟩ [] =
      (none, [Row.persona, Row.pain_point, Row.script])
    ∧ Row.campaign ∉
        (create_auto_campaign (fun _ => false) ⟨["twitter", "shorts"], true, "tw", "cap"⟩ []).2
    ∧ Row.platform_attach "twitter" ∉
        (create_auto_campaign (fun _ => false) ⟨["twitter", "shorts"], true, "tw", "cap"⟩ []).2
    ∧ Row.content_tweet "tw" ∉
        (create_auto_campaign (fun _ => false) ⟨["twitter", "shorts"], true, "tw", "cap"⟩ []).2
    ∧ Row.content_caption "cap" ∉
        (create_auto_campaign (fun _ => false) ⟨["twitter", "shorts"], true, "tw", "cap"⟩ []).2
    ∧ Row.content_video none ∉
        (create_auto_campaign (fun _ => false) ⟨["twitter", "shorts"], true, "tw", "cap"⟩ []).2
    ∧ rows_of (campaign_ops ["twitter", "shorts"] true "tw" "cap") =
        [Row.persona, Row.pain_point, Row.script]
    ∧ create_auto_campaign (fun i => decide (i = 2))
        ⟨["twitter", "shorts"], true, "tw", "cap"⟩ [] = (some "500", []) := by
  refine ⟨by decide, by decide, by decide, by decide, by decide, by decide, by decide, by decide⟩

/-- C9 counterexample: a platform list containing the unsupported name
"myspace" next to the supported "twitter" does NOT fail validation — the
validator silently drops the unsupported entry and accepts the list. -/
theorem C9_unsupported_platform_accepted_cex :
    normalize_and_validate_platforms ["twitter", "myspace"] = Except.ok ["twitter"] := by
  decide

/-- C9 amended: the platform list is validated against the static
capability registry before any database write: an empty list fails
validation, a list in which NO platform is supported fails validation, and
every accepted list is non-empty and contains only supported platforms —
but unsupported names alongside at least one supported one are dropped
rather than rejected.  A validation failure reaches the caller with the
database untouched. -/
theorem C9_platform_validation :
    normalize_and_validate_platforms [] = Except.error "At least one platform must be provided"
    ∧ normalize_and_validate_platforms ["myspace"] = Except.error "Unsupported platforms"
    ∧ (∀ (value result : List String),
        normalize_and_validate_platforms value = Except.ok result →
          result ≠ [] ∧ ∀ p ∈ result, p ∈ supported_platforms)
    ∧ (∀ (fails : Nat → Bool) (req : AutoCampaignInput) (c : List Row) (e : String),
        normalize_and_validate_platforms req.platforms_raw = Except.error e →
          create_auto_campaign fails req c = (some e, c)) := by
  refine ⟨by decide, by decide, ?_, ?_⟩
  · intro v r h
    simp only [normalize_and_validate_platforms] at h
    split_ifs at h with h1 h2 h3
    · injection h with hx
      subst hx
      refine ⟨h3, ?_⟩
      intro p hp
      have hmem := List.mem_filter.mp hp
      have hc := hmem.2
      simpa [List.contains_iff_exists_mem_beq, beq_iff_eq] using hc
  · intro fails req c e hve
    simp [create_auto_campaign, hve]

/-- C9 witness: the general branches applied to a concrete accepted mixed
list and a concrete rejected all-unsupported request. -/
theorem C9_platform_validation_witness :
    normalize_and_validate_platforms ["twitter", "myspace"] = Except.ok ["twitter"]
    ∧ (["twitter"] : List String) ≠ []
    ∧ "twitter" ∈ supported_platforms
    ∧ normalize_and_validate_platforms ["myspace"] = Except.error "Unsupported platforms"
    ∧ create_auto_campaign (fun _ => false) ⟨["myspace"], false, "t", "c"⟩ [] =
        (some "Unsupported platforms", []) :=
  ⟨by decide, by decide,
    (C9_platform_validation.2.2.1 ["twitter", "myspace"] ["twitter"] (by decide)).2
      "twitter" (by decide),
    by decide,
    C9_platform_validation.2.2.2 (fun _ => false) ⟨["myspace"], false, "t", "c"⟩ []
      "Unsupported platforms" (by decide)⟩

/-- C8 counterexample: TwitterPlatform.test_connection does NOT always
return a boolean health signal.  With an access token configured and an
HTTP outcome of 404 on the health request, the retry engine raises
APIRequestError and test_connection propagates it instead of returning
a boolean. -/
theorem C8_twitter_test_connection_raises_cex :
    twitter_test_connection false true (fun _ => HttpOutcome.resp 404) true =
      Except.error RetryResult.apiRequestError := by
  decide

/-- C8 amended: RedditPlatform.test_connection never raises — for every
combination of demo mode, client initialization, authenticate() and
user.me() behaviour it returns a boolean.  TwitterPlatform.test_connection
returns false without issuing a request in demo mode or when no access
token is configured, but otherwise propagates what the retry engine
raises: a run of rate-limit responses, for example, surfaces
RateLimitError out of test_connection. -/
theorem C8_test_connection_contract :
    (∀ demo hasClient authThrows meThrows meUser : Bool, ∃ b : Bool,
        reddit_test_connection demo hasClient authThrows meThrows meUser = Except.ok b)
    ∧ (∀ (o : Nat → HttpOutcome) (a : Bool),
        twitter_test_connection true true o a = Except.ok false)
    ∧ (∀ (o : Nat → HttpOutcome) (a : Bool),
        twitter_test_connection false false o a = Except.ok false)
    ∧ twitter_test_connection false true (fun _ => HttpOutcome.resp 429) true =
        Except.error RetryResult.rateLimitError := by
  refine ⟨?_, ?_, ?_, by decide⟩
  · intro demo hasClient authThrows meThrows meUser
    cases demo <;> cases hasClient <;> cases authThrows <;> cases meThrows <;>
      cases meUser <;> exact ⟨_, rfl⟩
  · intro o a
    rfl
  · intro o a
    rfl

/-- Helper: no base64 alphabet character is the padding byte 61 ('='). -/
theorem b64Char_ne_61 (n : Nat) : b64Char n ≠ 61 := by
  unfold b64Char
  split_ifs <;> omega

/-- Helper: the base64 encoding is its payload followed by its padding. -/
theorem b64encode_eq_body_pad : ∀ bs : List Nat,
    b64encode bs = b64body bs ++ List.replicate (b64padCount bs) 61
  | [] => by simp [b64encode, b64body, b64padCount]
  | [b0] => by simp [b64encode, b64body, b64padCount]
  | [b0, b1] => by simp [b64encode, b64body, b64padCount]
  | b0 :: b1 :: b2 :: rest => by
    simp only [b64encode, b64body, b64padCount]
    rw [b64encode_eq_body_pad rest]
    simp

/-- Helper: the payload of a base64 encoding never contains the padding
byte. -/
theorem b64body_ne_61 : ∀ (bs : List Nat), ∀ x ∈ b64body bs, x ≠ 61
  | [] => by simp [b64body]
  | [b0] => by
    intro x hx
    simp only [b64body, List.mem_cons, List.not_mem_nil, or_false] at hx
    rcases hx with rfl | rfl <;> exact b64Char_ne_61 _
  | [b0, b1] => by
    intro x hx
    simp only [b64body, List.mem_cons, List.not_mem_nil, or_false] at hx
    rcases hx with rfl | rfl | rfl <;> exact b64Char_ne_61 _
  | b0 :: b1 :: b2 :: rest => by
    intro x hx
    simp only [b64body, List.mem_cons] at hx
    rcases hx with rfl | rfl | rfl | rfl | h
    · exact b64Char_ne_61 _
    · exact b64Char_ne_61 _
    · exact b64Char_ne_61 _
    · exact b64Char_ne_61 _
    · exact b64body_ne_61 rest x h

/-- Helper: length of the base64 payload of an n-byte string. -/
theorem b64body_length : ∀ bs : List Nat,
    (b64body bs).length = (4 * bs.length + 2) / 3
  | [] => by simp [b64body]
  | [b0] => by simp [b64body]
  | [b0, b1] => by simp [b64body]
  | b0 :: b1 :: b2 :: rest => by
    simp only [b64body, List.length_cons]
    rw [b64body_length rest]
    omega

/-- Helper: dropWhile over a block of padding bytes skips the whole block. -/
theorem dropWhile_replicate_61 (t : List Nat) : ∀ k : Nat,
    List.dropWhile (fun b => b == 61) (List.replicate k 61 ++ t) =
      List.dropWhile (fun b => b == 61) t
  | 0 => by simp
  | k + 1 => by
    have hstep : List.replicate (k + 1) 61 ++ t = 61 :: (List.replicate k 61 ++ t) := by
      simp [List.replicate]
    rw [hstep, List.dropWhile_cons]
    norm_num

/-- Helper: dropWhile removes nothing from a padding-free list. -/
theorem dropWhile_of_ne_61 (l : List Nat) (h : ∀ x ∈ l, x ≠ 61) :
    List.dropWhile (fun b => b == 61) l = l := by
  cases l with
  | nil => rfl
  | cons c t =>
    have hc : (c == 61) = false := by
      have := h c (by simp)
      simpa using this
    simp [List.dropWhile, hc]

/-- Helper: rstrip('=') of payload-plus-padding is exactly the payload. -/
theorem rstrip_body_pad (l : List Nat) (k : Nat) (h : ∀ x ∈ l, x ≠ 61) :
    rstripEq (l ++ List.replicate k 61) = l := by
  unfold rstripEq
  rw [List.reverse_append, List.reverse_replicate, dropWhile_replicate_61,
    dropWhile_of_ne_61 l.reverse (by intro x hx; exact h x (List.mem_reverse.mp hx)),
    List.reverse_reverse]

/-- Helper: removing every padding byte from payload-plus-padding also
yields exactly the payload. -/
theorem filter_body_pad (l : List Nat) (k : Nat) (h : ∀ x ∈ l, x ≠ 61) :
    (l ++ List.replicate k 61).filter (fun b => b ≠ 61) = l := by
  rw [List.filter_append]
  have h1 : l.filter (fun b => (b ≠ 61 : Bool)) = l := by
    apply List.filter_eq_self.mpr
    intro a ha
    simpa using h a ha
  have h2 : (List.replicate k 61).filter (fun b => (b ≠ 61 : Bool)) = [] := by
    apply List.filter_eq_nil_iff.mpr
    intro a ha
    have := List.eq_of_mem_replicate ha
    simp [this]
  rw [h1, h2, List.append_nil]

/-- Helper: a SHA-256 digest is 32 bytes long. -/
theorem sha256_length (msg : List Nat) : (sha256 msg).length = 32 := by
  simp [sha256, wordBytesBE]

/-- Validation of the SHA-256 embedding against the standard test vector
for "abc". -/
theorem sha256_abc_test_vector : sha256 [97, 98, 99] =
    [186, 120, 22, 191, 143, 1, 207, 234, 65, 65, 64, 222, 93, 174, 34, 35,
     176, 3, 97, 163, 150, 23, 122, 156, 180, 16, 255, 97, 242, 0, 21, 173] := by
  decide

/-- Validation of the PKCE embedding on the byte string 0..31: the exact
verifier and challenge byte strings produced by the source for this
input (ASCII "AAECAwQFBgcICQoLDA0ODxAREhMUFRYXGBkaGxwdHh8" and
"6oZqdX5MOLq_qBJ8vppAnT4fk6AP8UiP9zX8-Rev_9A"). -/
theorem pkce_pair_test_vector :
    generate_pkce_pair (List.range 32) =
      ([65, 65, 69, 67, 65, 119, 81, 70, 66, 103, 99, 73, 67, 81, 111, 76, 68,
        65, 48, 79, 68, 120, 65, 82, 69, 104, 77, 85, 70, 82, 89, 88, 71, 66,
        107, 97, 71, 120, 119, 100, 72, 104, 56],
       [54, 111, 90, 113, 100, 88, 53, 77, 79, 76, 113, 95, 113, 66, 74, 56,
        118, 112, 112, 65, 110, 84, 52, 102, 107, 54, 65, 80, 56, 85, 105, 80,
        57, 122, 88, 56, 45, 82, 101, 118, 95, 57, 65]) := by
  decide

/-- C7: for every 32-byte random input, the generated verifier is the
base64url encoding of those bytes with the padding stripped, and the
challenge is base64url(SHA-256(verifier)) with no padding: it equals the
spec-side formulation (all padding bytes removed), contains no '='
anywhere, and both strings have the padding-free length 43. -/
theorem C7_pkce_pair (r : List Nat) (h : r.length = 32) :
    (generate_pkce_pair r).1 = b64body r
    ∧ (generate_pkce_pair r).2 = b64body (sha256 (generate_pkce_pair r).1)
    ∧ (generate_pkce_pair r).2 = pkce_challenge_spec (generate_pkce_pair r).1
    ∧ (∀ x ∈ (generate_pkce_pair r).1, x ≠ 61)
    ∧ (generate_pkce_pair r).1.length = 43
    ∧ (∀ x ∈ (generate_pkce_pair r).2, x ≠ 61)
    ∧ (generate_pkce_pair r).2.length = 43 := by
  have hv : (generate_pkce_pair r).1 = b64body r := by
    show rstripEq (b64encode r) = b64body r
    rw [b64encode_eq_body_pad r]
    exact rstrip_body_pad _ _ (b64body_ne_61 r)
  have hc : (generate_pkce_pair r).2 = b64body (sha256 (generate_pkce_pair r).1) := by
    show rstripEq (b64encode (sha256 (rstripEq (b64encode r)))) =
      b64body (sha256 (rstripEq (b64encode r)))
    rw [b64encode_eq_body_pad]
    exact rstrip_body_pad _ _ (b64body_ne_61 _)
  have hspec : pkce_challenge_spec (generate_pkce_pair r).1 =
      b64body (sha256 (generate_pkce_pair r).1) := by
    unfold pkce_challenge_spec
    rw [b64encode_eq_body_pad]
    exact filter_body_pad _ _ (b64body_ne_61 _)
  refine ⟨hv, hc, by rw [hc, hspec], ?_, ?_, ?_, ?_⟩
  · rw [hv]
    exact b64body_ne_61 r
  · rw [hv, b64body_length, h]
  · rw [hc]
    exact b64body_ne_61 _
  · rw [hc, b64body_length, sha256_length]

/-- C7 witness: the PKCE theorem at the concrete 32-byte input 0..31. -/
theorem C7_pkce_pair_witness :
    (List.range 32).length = 32
    ∧ (generate_pkce_pair (List.range 32)).2 =
        pkce_challenge_spec (generate_pkce_pair (List.range 32)).1
    ∧ (generate_pkce_pair (List.range 32)).2.length = 43 :=
  ⟨by simp,
    (C7_pkce_pair (List.range 32) (by simp)).2.2.1,
    (C7_pkce_pair (List.range 32) (by simp)).2.2.2.2.2.2⟩

end Sgtma
